import Mathlib

/-!
Shallow embedding of the fuel-station extraction pipeline in helpers.py
(read_fuel_station_records, _get_column_value, _normalize_boolean,
_normalize_status) of the sasco_mcp repository, together with theorems
checking the specification claims against it.

Python values flowing through the pipeline are modelled by PyVal
(None, float NaN, bool, int, str); a spreadsheet row is an association
list from column name to PyVal, mirroring a pandas Series produced by
iterrows.  Exceptions are modelled with Except PyErr.
-/

/-- Python runtime values relevant to the pipeline: None, float NaN,
bool, int and str cells. -/
inductive PyVal where
  | none
  | nan
  | bool (b : Bool)
  | int (n : Int)
  | str (s : String)
deriving DecidableEq, Repr

/-- Python exceptions that the embedded code can raise. -/
inductive PyErr where
  | typeError
  | fileNotFoundError
  | attributeError
deriving DecidableEq, Repr

/-- A pandas row as produced by df.iterrows(): an association list from
column label to cell value. -/
abbrev Row := List (String × PyVal)

/-- pd.notna: false exactly on None and NaN. -/
def pdNotna (v : PyVal) : Bool :=
  match v with
  | PyVal.none => false
  | PyVal.nan => false
  | _ => true

/-- pd.isna. -/
def pdIsna (v : PyVal) : Bool := !pdNotna v

/-- s.lower(): lower-case every character (ASCII case folding; the
Arabic strings in this data carry no case). -/
def pyLowerStr (s : String) : String := String.mk (s.data.map Char.toLower)

/-- s.strip(): remove leading and trailing whitespace. -/
def pyStripStr (s : String) : String :=
  String.mk (((s.data.dropWhile Char.isWhitespace).reverse.dropWhile
    Char.isWhitespace).reverse)

/-- Python truthiness of a PyVal (bool(v)). -/
def pyTruthy (v : PyVal) : Bool :=
  match v with
  | PyVal.none => false
  | PyVal.nan => true
  | PyVal.bool b => b
  | PyVal.int n => n != 0
  | PyVal.str s => s != ""

/-- v.lower(): succeeds only on str, every other value lacks the
attribute and raises AttributeError. -/
def pyLower (v : PyVal) : Except PyErr String :=
  match v with
  | PyVal.str s => Except.ok (pyLowerStr s)
  | _ => Except.error PyErr.attributeError

/-- Python str(v). -/
def pyStr (v : PyVal) : String :=
  match v with
  | PyVal.none => "None"
  | PyVal.nan => "nan"
  | PyVal.bool b => if b then "True" else "False"
  | PyVal.int n => toString n
  | PyVal.str s => s

/-- row[col] when col is in row.index, otherwise nothing. -/
def rowLookup (row : Row) (col : String) : Option PyVal :=
  (row.find? (fun p => p.1 == col)).map (fun p => p.2)

/-- _get_column_value (helpers.py lines 70-84): return the value of the
first candidate column that is present in the row with a non-NA value;
Python None when none matches. -/
def get_column_value (row : Row) : List String → PyVal
  | [] => PyVal.none
  | c :: rest =>
    match rowLookup row c with
    | some v => if pdNotna v then v else get_column_value row rest
    | Option.none => get_column_value row rest

/-- The truthy string set of _normalize_boolean (helpers.py line 104). -/
def trueTokens : List String := ["true", "yes", "نعم", "1", "موجود", "متوفر"]

/-- The falsy string set of _normalize_boolean (helpers.py line 106). -/
def falseTokens : List String := ["false", "no", "لا", "0", "غير موجود", "غير متوفر"]

/-- _normalize_boolean (helpers.py lines 86-112). -/
def normalize_boolean (value : PyVal) : PyVal :=
  if pdIsna value then PyVal.none
  else
    match value with
    | PyVal.bool b => PyVal.bool b
    | PyVal.str s =>
      let v := pyStripStr (pyLowerStr s)
      if v ∈ trueTokens then PyVal.str "متوفر"
      else if v ∈ falseTokens then PyVal.str "غير متوفر"
      else PyVal.none
    | PyVal.int n => PyVal.bool (n != 0)
    | _ => PyVal.none

/-- The working-status string set of _normalize_status (helpers.py line
129); the capitalized Automated entry is kept exactly as written in the
source, although it can never match a lower-cased input. -/
def workingTokens : List String :=
  ["working", "active", "يعمل", "نشط", "فعال", "Automated", "automated"]

/-- The not-working-status string set of _normalize_status (helpers.py
line 131). -/
def notWorkingTokens : List String :=
  ["not working", "inactive", "لا يعمل", "غير نشط", "معطل", "Not Automated", "not automated"]

/-- _normalize_status (helpers.py lines 114-134).  Note that for a str
input the local variable is reassigned to its lower-cased, trimmed form
before the final return str(value). -/
def normalize_status (value : PyVal) : PyVal :=
  if pdIsna value then PyVal.none
  else
    match value with
    | PyVal.str s =>
      let v := pyStripStr (pyLowerStr s)
      if v ∈ workingTokens then PyVal.str "Working"
      else if v ∈ notWorkingTokens then PyVal.str "Not Working"
      else PyVal.str v
    | other => PyVal.str (pyStr other)

/-- The station_data dictionary built for each row (helpers.py lines
41-51). -/
structure StationRecord where
  region : PyVal
  city : PyVal
  fuel_station : PyVal
  station_status : PyVal
  rfid : PyVal
  smart_cars : PyVal
  diesel : PyVal
  district : PyVal
deriving DecidableEq, Repr

/-- Assembly of station_data from a row, with the exact alias lists of
helpers.py lines 42-49. -/
def mkStationData (row : Row) : StationRecord :=
  { region := get_column_value row ["Region", "region"]
    city := get_column_value row ["City", "المدينة", "city"]
    fuel_station :=
      get_column_value row ["Fuel Station Name", "fuel_station", "station_name", "اسم المحطة"]
    station_status :=
      normalize_status (get_column_value row
        ["Status", "status of the station", "station_status", "حالة المحطة"])
    rfid := normalize_boolean (get_column_value row ["Control Service Type", "RFID", "rfid"])
    smart_cars :=
      normalize_boolean (get_column_value row
        ["Smart Card", "smart cars", "smart_cars", "السيارات الذكية"])
    diesel := normalize_boolean (get_column_value row ["Diesel", "diesel", "ديزل"])
    district := get_column_value row ["اسم الحي", "الحي", "district", "area", "اسم الحي "] }

/-- Character-list prefix test, the building block of the Python
substring operator. -/
def leadsWith : List Char → List Char → Bool
  | [], _ => true
  | _ :: _, [] => false
  | a :: as, b :: bs => a == b && leadsWith as bs

/-- Contiguous-sublist test on character lists. -/
def subList (needle : List Char) : List Char → Bool
  | [] => needle.isEmpty
  | c :: rest => leadsWith needle (c :: rest) || subList needle rest

/-- The Python expression needle in hay on strings: contiguous substring
containment. -/
def pyInStr (needle hay : String) : Bool := subList needle.data hay.data

/-- The city-filter step of helpers.py lines 56-59 applied to one row:
given the query city argument and the resolved city cell, decide whether
the row is kept (true) or skipped by continue (false); lowering a
non-str city cell raises. -/
def cityFilterStep (city : Option String) (v : PyVal) : Except PyErr Bool :=
  match city with
  | Option.none => Except.ok true
  | some c =>
    if (c != "") && pyTruthy v then
      match pyLower v with
      | Except.error e => Except.error e
      | Except.ok lowered => Except.ok (pyInStr (pyLowerStr c) lowered)
    else Except.ok true

/-- How the scan of helpers.py lines 38-68 ended: the loop ran off the
end of the rows, the break on a Not Working status fired, or an
exception was raised and caught by the blanket except clause. -/
inductive ScanOutcome where
  | completed
  | halted
  | errored
deriving DecidableEq, Repr

/-- One iteration of the row loop (helpers.py lines 38-63) given the
already-assembled station_data of the row and the result of scanning the
remaining rows.  A raised exception or a break discards the rest of the
scan and contributes no record of its own. -/
def processTail (d : StationRecord) (city : Option String)
    (tail : List StationRecord × ScanOutcome) : List StationRecord × ScanOutcome :=
  match pyLower d.station_status with
  | Except.error _ => ([], ScanOutcome.errored)
  | Except.ok sl =>
    if sl = "not working" then ([], ScanOutcome.halted)
    else
      match cityFilterStep city d.city with
      | Except.error _ => ([], ScanOutcome.errored)
      | Except.ok keep =>
        if keep && (pyTruthy d.fuel_station && pdNotna d.fuel_station)
        then (d :: tail.1, tail.2)
        else tail

/-- The row loop of helpers.py lines 38-63: emitted records plus how the
scan ended. -/
def scanRowsO : List Row → Option String → List StationRecord × ScanOutcome
  | [], _ => ([], ScanOutcome.completed)
  | row :: rest, city => processTail (mkStationData row) city (scanRowsO rest city)

/-- The list all_stations returned by read_fuel_station_records for a
given row list: records accumulated up to completion, break, or the
caught exception. -/
def scanRows (rows : List Row) (city : Option String) : List StationRecord :=
  (scanRowsO rows city).1

/-- The columns dropped at helpers.py line 35. -/
def dropped_columns : List String :=
  ["Unnamed: 13", "Region.1", "# of Sites", "RFID.1", "Smart Card.1", "Unnamed: 0", "SN"]

/-- df.drop(columns=dropped_columns, errors=ignore) applied to one row. -/
def dropCols (row : Row) : Row :=
  row.filter (fun p => !(dropped_columns.contains p.1))

/-- The state of the source spreadsheet as seen by one query: absent at
the configured path, or present with the outcome of parsing it into
rows. -/
inductive Source where
  | absent
  | present (parse : Except PyErr (List Row))

/-- helpers.py lines 26-68: the existence check, the try block around
parsing and scanning, and the final return of all_stations.  A parse
failure is caught by the blanket except and yields the still-empty
accumulator. -/
def read_fuel_station_records_body (src : Source) (city : Option String) :
    Except PyErr (List StationRecord) :=
  match src with
  | Source.absent => Except.error PyErr.fileNotFoundError
  | Source.present (Except.error _) => Except.ok []
  | Source.present (Except.ok df) => Except.ok (scanRows (df.map dropCols) city)

/-- Python path-like values: a pathlib.Path with segments, or a plain
str (which does not support the / operator). -/
inductive PyPath where
  | str (s : String)
  | path (segs : List String)
deriving DecidableEq, Repr

/-- The Python / operator on a path-like left operand and a str right
operand: pathlib.Path supports it, a plain str raises TypeError. -/
def truedivPath : PyPath → String → Except PyErr PyPath
  | PyPath.path segs, seg => Except.ok (PyPath.path (segs ++ [seg]))
  | PyPath.str _, _ => Except.error PyErr.typeError

/-- helpers.py line 23: records_path is the plain string data, not a
pathlib.Path. -/
def records_path : PyPath := PyPath.str "data"

/-- read_fuel_station_records (helpers.py lines 6-68) in full, including
the path construction of line 25 which precedes the try block. -/
def read_fuel_station_records (src : Source) (city : Option String) :
    Except PyErr (List StationRecord) :=
  match truedivPath records_path "محطات- الوسطى.xlsx" with
  | Except.error e => Except.error e
  | Except.ok _ => read_fuel_station_records_body src city

/-- Whether processing this row triggers the break of helpers.py lines
52-54: the normalized status lowers successfully and equals the
lower-cased Not Working. -/
def rowHaltsNW (r : Row) : Bool :=
  match pyLower (mkStationData r).station_status with
  | Except.ok sl => sl == "not working"
  | Except.error _ => false

/-- Modelled from the spec: ColumnResolver contract of spec section 4.2,
returning the value of the first alias present in the row whose value is
not missing, and missing when none match; stated for comparison with
get_column_value. -/
def aliasHit (row : Row) (c : String) : Bool :=
  match rowLookup row c with
  | some v => pdNotna v
  | Option.none => false

/-- Modelled from the spec: the resolve(row, aliasList) function of spec
section 4.2, used only to compare the source implementation against the
specification wording. -/
def resolve_spec (row : Row) (cols : List String) : PyVal :=
  match cols.find? (aliasHit row) with
  | some c => (rowLookup row c).getD PyVal.none
  | Option.none => PyVal.none

/-! ## Helper lemmas -/

theorem leadsWith_iff (n : List Char) : ∀ h : List Char,
    leadsWith n h = true ↔ ∃ t, h = n ++ t := by
  induction n with
  | nil => intro h; simp [leadsWith]
  | cons a as ih =>
    intro h
    cases h with
    | nil => simp [leadsWith]
    | cons b bs =>
      simp only [leadsWith, Bool.and_eq_true, beq_iff_eq, ih, List.cons_append,
        List.cons.injEq]
      constructor
      · rintro ⟨hab, t, ht⟩
        exact ⟨t, hab.symm, ht⟩
      · rintro ⟨t, hba, ht⟩
        exact ⟨hba.symm, t, ht⟩

theorem subList_iff (n : List Char) : ∀ h : List Char,
    subList n h = true ↔ ∃ pre post, h = pre ++ n ++ post := by
  intro h
  induction h with
  | nil =>
    simp only [subList, List.isEmpty_iff]
    constructor
    · rintro rfl; exact ⟨[], [], rfl⟩
    · rintro ⟨pre, post, hp⟩
      rcases List.append_eq_nil.mp hp.symm with ⟨h1, h2⟩
      exact (List.append_eq_nil.mp h1).2
  | cons c rest ih =>
    simp only [subList, Bool.or_eq_true, leadsWith_iff, ih]
    constructor
    · rintro (⟨t, ht⟩ | ⟨pre, post, hp⟩)
      · exact ⟨[], t, by simp [ht]⟩
      · exact ⟨c :: pre, post, by simp [hp]⟩
    · rintro ⟨pre, post, hp⟩
      cases pre with
      | nil => exact Or.inl ⟨post, by simpa using hp⟩
      | cons p ps =>
        simp only [List.cons_append, List.cons.injEq] at hp
        exact Or.inr ⟨ps, post, hp.2⟩

theorem pyInStr_iff (n h : String) :
    pyInStr n h = true ↔ ∃ pre post, h.data = pre ++ n.data ++ post :=
  subList_iff n.data h.data

theorem processTail_fst_congr (d : StationRecord) (city : Option String)
    (t t' : List StationRecord × ScanOutcome) (h : t.1 = t'.1) :
    (processTail d city t).1 = (processTail d city t').1 := by
  unfold processTail
  cases pyLower d.station_status with
  | error e => rfl
  | ok sl =>
    by_cases hsl : sl = "not working"
    · simp [hsl]
    · simp only [if_neg hsl]
      cases cityFilterStep city d.city with
      | error e => rfl
      | ok keep =>
        by_cases hk : (keep && (pyTruthy d.fuel_station && pdNotna d.fuel_station)) = true
        · simp [hk, h]
        · simp only [Bool.not_eq_true] at hk
          simp [hk, h]

theorem scan_prefix_congr (pre xs ys : List Row) (city : Option String)
    (h : (scanRowsO xs city).1 = (scanRowsO ys city).1) :
    (scanRowsO (pre ++ xs) city).1 = (scanRowsO (pre ++ ys) city).1 := by
  induction pre with
  | nil => simpa using h
  | cons p ps ih =>
    simp only [List.cons_append, scanRowsO]
    exact processTail_fst_congr _ _ _ _ ih

theorem gcv_eq_resolve_spec (row : Row) : ∀ cols : List String,
    get_column_value row cols = resolve_spec row cols := by
  intro cols
  induction cols with
  | nil => rfl
  | cons c rest ih =>
    unfold get_column_value resolve_spec
    rw [List.find?_cons]
    cases hl : rowLookup row c with
    | none =>
      have ha : aliasHit row c = false := by simp [aliasHit, hl]
      simp only [ha, ih, resolve_spec]
    | some v =>
      by_cases hn : pdNotna v = true
      · have ha : aliasHit row c = true := by simp [aliasHit, hl, hn]
        simp [ha, hl, hn]
      · simp only [Bool.not_eq_true] at hn
        have ha : aliasHit row c = false := by simp [aliasHit, hl, hn]
        simp only [ha, hl, hn, if_neg, cond_false, ih, resolve_spec, Bool.false_eq_true]
        simp

/-! ## Claim theorems -/

/-- C10: for every row and alias list, column resolution returns the
value of the first alias, in the priority order of the list, that is
present in the row with a non-missing value, and missing (None) when no
alias is present with a non-missing value; and the per-field alias lists
used by the record assembly are exactly the documented ones, including
the trailing-space district variant. -/
theorem column_resolution_matches_spec :
    (∀ (row : Row) (cols : List String),
      get_column_value row cols = resolve_spec row cols) ∧
    (∀ row : Row, mkStationData row =
      { region := get_column_value row ["Region", "region"]
        city := get_column_value row ["City", "المدينة", "city"]
        fuel_station :=
          get_column_value row
            ["Fuel Station Name", "fuel_station", "station_name", "اسم المحطة"]
        station_status :=
          normalize_status (get_column_value row
            ["Status", "status of the station", "station_status", "حالة المحطة"])
        rfid :=
          normalize_boolean (get_column_value row ["Control Service Type", "RFID", "rfid"])
        smart_cars :=
          normalize_boolean (get_column_value row
            ["Smart Card", "smart cars", "smart_cars", "السيارات الذكية"])
        diesel := normalize_boolean (get_column_value row ["Diesel", "diesel", "ديزل"])
        district :=
          get_column_value row ["اسم الحي", "الحي", "district", "area", "اسم الحي "] }) :=
  ⟨gcv_eq_resolve_spec, fun _ => rfl⟩

/-- C2: when the source file exists but reading or parsing it fails with
any exception, the blanket except clause catches it and the query
returns the still-empty accumulator list instead of raising. -/
theorem extraction_failure_returns_empty (city : Option String) (e : PyErr) :
    read_fuel_station_records_body (Source.present (Except.error e)) city =
      Except.ok [] := rfl

/-- C7 (code evaluated at the failing input): every call of
read_fuel_station_records evaluates the expression records_path /
filename on a plain str at line 25, which raises TypeError before the
existence check of line 26 ever runs, so a missing source file surfaces
as TypeError, not as the FileNotFoundError that lines 26-27 would raise
if they were reached. -/
theorem path_join_raises_type_error :
    (∀ (src : Source) (city : Option String),
      read_fuel_station_records src city = Except.error PyErr.typeError) ∧
    (∀ city : Option String,
      read_fuel_station_records_body Source.absent city =
        Except.error PyErr.fileNotFoundError) :=
  ⟨fun _ _ => rfl, fun _ => rfl⟩

/-- C4 counterexample: the claim says an unrecognized status string is
returned unchanged, but normalize_status returns the lower-cased,
trimmed form: Pending Review comes back as pending review. -/
theorem unrecognized_status_not_unchanged_counterexample :
    normalize_status (PyVal.str "Pending Review") = PyVal.str "pending review" ∧
    PyVal.str "pending review" ≠ PyVal.str "Pending Review" := by
  constructor
  · rfl
  · decide

/-- C4 amended: for every string whose lower-cased, trimmed form is in
neither the working set nor the not-working set, normalize_status
returns the lower-cased, trimmed form of that string (a passthrough of
the case-normalized text, not of the original). -/
theorem unrecognized_status_returns_lowered_trimmed (s : String)
    (h1 : pyStripStr (pyLowerStr s) ∉ workingTokens)
    (h2 : pyStripStr (pyLowerStr s) ∉ notWorkingTokens) :
    normalize_status (PyVal.str s) = PyVal.str (pyStripStr (pyLowerStr s)) := by
  simp [normalize_status, pdIsna, pdNotna, h1, h2]

/-- C4 amended, witness at a concrete input. -/
theorem unrecognized_status_returns_lowered_trimmed_witness :
    normalize_status (PyVal.str "Closed For Maintenance") =
      PyVal.str "closed for maintenance" :=
  unrecognized_status_returns_lowered_trimmed "Closed For Maintenance"
    (by decide) (by decide)

/-- C8: normalize_boolean maps missing (None or NaN) to None, a native
bool to itself, a lower-cased trimmed string in the truthy set to the
available token, one in the falsy set to the not-available token, any
other string to None, and an int to its truthiness as a plain Python
bool, a representation distinct from the string branch tokens. -/
theorem normalize_boolean_branch_behavior :
    normalize_boolean PyVal.none = PyVal.none ∧
    normalize_boolean PyVal.nan = PyVal.none ∧
    (∀ b : Bool, normalize_boolean (PyVal.bool b) = PyVal.bool b) ∧
    (∀ s : String, pyStripStr (pyLowerStr s) ∈ trueTokens →
      normalize_boolean (PyVal.str s) = PyVal.str "متوفر") ∧
    (∀ s : String, pyStripStr (pyLowerStr s) ∈ falseTokens →
      normalize_boolean (PyVal.str s) = PyVal.str "غير متوفر") ∧
    (∀ s : String, pyStripStr (pyLowerStr s) ∉ trueTokens →
      pyStripStr (pyLowerStr s) ∉ falseTokens →
      normalize_boolean (PyVal.str s) = PyVal.none) ∧
    (∀ n : Int, normalize_boolean (PyVal.int n) = PyVal.bool (n != 0)) ∧
    (∀ (b : Bool) (s : String), PyVal.bool b ≠ PyVal.str s) := by
  refine ⟨rfl, rfl, fun b => rfl, ?_, ?_, ?_, fun n => rfl, fun b s => by simp⟩
  · intro s hs
    simp [normalize_boolean, pdIsna, pdNotna, hs]
  · intro s hs
    have ht : pyStripStr (pyLowerStr s) ∉ trueTokens := by
      intro h
      simp only [falseTokens, List.mem_cons, List.not_mem_nil, or_false] at hs
      simp only [trueTokens, List.mem_cons, List.not_mem_nil, or_false] at h
      rcases hs with hs | hs | hs | hs | hs | hs <;>
        rcases h with h | h | h | h | h | h <;> simp [hs] at h
    simp [normalize_boolean, pdIsna, pdNotna, ht, hs]
  · intro s h1 h2
    simp [normalize_boolean, pdIsna, pdNotna, h1, h2]

/-- C8, witness at concrete inputs for the branches with hypotheses. -/
theorem normalize_boolean_branch_behavior_witness :
    normalize_boolean (PyVal.str " TRUE ") = PyVal.str "متوفر" ∧
    normalize_boolean (PyVal.str "لا") = PyVal.str "غير متوفر" ∧
    normalize_boolean (PyVal.str "maybe later") = PyVal.none :=
  ⟨normalize_boolean_branch_behavior.2.2.2.1 " TRUE " (by decide),
   normalize_boolean_branch_behavior.2.2.2.2.1 "لا" (by decide),
   normalize_boolean_branch_behavior.2.2.2.2.2.1 "maybe later" (by decide)
     (by decide)⟩

theorem mem_processTail_fst {r d : StationRecord} {city : Option String}
    {t : List StationRecord × ScanOutcome} (h : r ∈ (processTail d city t).1) :
    (r = d ∧ pyTruthy d.fuel_station = true ∧ pdNotna d.fuel_station = true) ∨
      r ∈ t.1 := by
  unfold processTail at h
  split at h
  · simp at h
  · split at h
    · simp at h
    · split at h
      · simp at h
      · split at h
        · rename_i hcond
          rw [Bool.and_eq_true, Bool.and_eq_true] at hcond
          rcases List.mem_cons.mp h with rfl | hm
          · exact Or.inl ⟨rfl, hcond.2.1, hcond.2.2⟩
          · exact Or.inr hm
        · exact Or.inr h

theorem pyLowerStr_empty : pyLowerStr "" = "" := rfl

theorem pyInStr_empty_needle (h : String) : pyInStr "" h = true := by
  unfold pyInStr
  have hd : ("" : String).data = [] := rfl
  rw [hd]
  cases h.data <;> simp [subList, leadsWith, List.isEmpty]

/-- C1: with an arbitrary query city, the scan of any row sequence whose
first break-triggering row (normalized status lowering to not working)
sits between a prefix and a suffix produces exactly what scanning the
prefix alone produces: the triggering row is not emitted and the rows
after it have no effect on the output. -/
theorem scan_halts_at_first_not_working (city : Option String)
    (pre rest : List Row) (row : Row)
    (_hpre : ∀ r ∈ pre, rowHaltsNW r = false) (hrow : rowHaltsNW row = true) :
    scanRows (pre ++ row :: rest) city = scanRows pre city := by
  have hhead : (scanRowsO (row :: rest) city).1 =
      (scanRowsO ([] : List Row) city).1 := by
    unfold rowHaltsNW at hrow
    cases hm : pyLower (mkStationData row).station_status with
    | error e => rw [hm] at hrow; simp at hrow
    | ok sl =>
      rw [hm] at hrow
      have hsl : sl = "not working" := by simpa using hrow
      simp [scanRowsO, processTail, hm, hsl]
  have hmain := scan_prefix_congr pre (row :: rest) [] city hhead
  simpa [scanRows] using hmain

/-- C1, witness: statuses Working, Working, Not Working, Working give
the same output as the first two rows alone. -/
theorem scan_halts_at_first_not_working_witness :
    scanRows
      [[("Fuel Station Name", PyVal.str "A"), ("Status", PyVal.str "Working")],
       [("Fuel Station Name", PyVal.str "B"), ("Status", PyVal.str "Working")],
       [("Fuel Station Name", PyVal.str "C"), ("Status", PyVal.str "Not Working")],
       [("Fuel Station Name", PyVal.str "D"), ("Status", PyVal.str "Working")]]
      Option.none =
    scanRows
      [[("Fuel Station Name", PyVal.str "A"), ("Status", PyVal.str "Working")],
       [("Fuel Station Name", PyVal.str "B"), ("Status", PyVal.str "Working")]]
      Option.none :=
  scan_halts_at_first_not_working Option.none
    [[("Fuel Station Name", PyVal.str "A"), ("Status", PyVal.str "Working")],
     [("Fuel Station Name", PyVal.str "B"), ("Status", PyVal.str "Working")]]
    [[("Fuel Station Name", PyVal.str "D"), ("Status", PyVal.str "Working")]]
    [("Fuel Station Name", PyVal.str "C"), ("Status", PyVal.str "Not Working")]
    (by decide) (by decide)

/-- C5: a row whose station_status resolves to missing makes the halt
check lower a None value, which raises and is caught by the blanket
handler: the query returns exactly the records accumulated from the
rows before it, and the scan of the row and its successors ends in the
errored state. -/
theorem missing_status_aborts_scan (city : Option String)
    (pre rest : List Row) (row : Row)
    (h : (mkStationData row).station_status = PyVal.none) :
    scanRows (pre ++ row :: rest) city = scanRows pre city ∧
    (scanRowsO (row :: rest) city).2 = ScanOutcome.errored := by
  have hpl : pyLower (mkStationData row).station_status =
      Except.error PyErr.attributeError := by rw [h]; rfl
  have hhead : scanRowsO (row :: rest) city = ([], ScanOutcome.errored) := by
    simp [scanRowsO, processTail, hpl]
  refine ⟨?_, by rw [hhead]⟩
  have hmain := scan_prefix_congr pre (row :: rest) [] city (by rw [hhead]; rfl)
  simpa [scanRows] using hmain

/-- C5, witness: a first row with a good status is emitted, the second
row without any status aborts the scan, and the third row is lost. -/
theorem missing_status_aborts_scan_witness :
    scanRows
      ([[("Fuel Station Name", PyVal.str "A"), ("Status", PyVal.str "Working")]] ++
        [("Fuel Station Name", PyVal.str "X")] ::
          [[("Fuel Station Name", PyVal.str "B"), ("Status", PyVal.str "Working")]])
      Option.none =
      scanRows [[("Fuel Station Name", PyVal.str "A"), ("Status", PyVal.str "Working")]]
        Option.none ∧
    (scanRowsO
      ([("Fuel Station Name", PyVal.str "X")] ::
        [[("Fuel Station Name", PyVal.str "B"), ("Status", PyVal.str "Working")]])
      Option.none).2 = ScanOutcome.errored :=
  missing_status_aborts_scan Option.none
    [[("Fuel Station Name", PyVal.str "A"), ("Status", PyVal.str "Working")]]
    [[("Fuel Station Name", PyVal.str "B"), ("Status", PyVal.str "Working")]]
    [("Fuel Station Name", PyVal.str "X")]
    (by decide)

/-- C3 counterexample: with the filter city riyadh, a row whose resolved
city is missing is not dropped: it is emitted, so a record with a
missing city field appears in the result of a filtered query. -/
theorem missing_city_kept_counterexample :
    scanRows [[("Fuel Station Name", PyVal.str "A"), ("Status", PyVal.str "Working")]]
        (some "riyadh") =
      [mkStationData
        [("Fuel Station Name", PyVal.str "A"), ("Status", PyVal.str "Working")]] ∧
    (mkStationData
      [("Fuel Station Name", PyVal.str "A"), ("Status", PyVal.str "Working")]).city =
      PyVal.none :=
  ⟨rfl, rfl⟩

/-- C3 amended: with a filter city, a row whose resolved city is missing
bypasses the city filter entirely (the guard requires a truthy city
cell): if its status passes the halt check and its fuel_station is
present, the row is emitted. -/
theorem missing_city_bypasses_city_filter (c : String) (row : Row)
    (rest : List Row) (sl : String)
    (hcity : (mkStationData row).city = PyVal.none)
    (hst : pyLower (mkStationData row).station_status = Except.ok sl)
    (hsl : sl ≠ "not working")
    (hname : (pyTruthy (mkStationData row).fuel_station &&
      pdNotna (mkStationData row).fuel_station) = true) :
    scanRows (row :: rest) (some c) =
      mkStationData row :: scanRows rest (some c) := by
  have hfil : cityFilterStep (some c) (mkStationData row).city = Except.ok true := by
    rw [hcity]; simp [cityFilterStep, pyTruthy]
  simp [scanRows, scanRowsO, processTail, hst, hsl, hfil, hname]

/-- C3 amended, witness at a concrete filtered query. -/
theorem missing_city_bypasses_city_filter_witness :
    scanRows [[("Fuel Station Name", PyVal.str "A"), ("Status", PyVal.str "Working")]]
        (some "riyadh") =
      mkStationData [("Fuel Station Name", PyVal.str "A"), ("Status", PyVal.str "Working")] ::
        scanRows [] (some "riyadh") :=
  missing_city_bypasses_city_filter "riyadh"
    [("Fuel Station Name", PyVal.str "A"), ("Status", PyVal.str "Working")]
    [] "working" rfl rfl (by decide) rfl

/-- C6 counterexample: a row lacking a resolvable fuel_station but whose
status is Not Working does not merely skip: it halts the scan, so the
qualifying second row is never emitted even though scanning it alone
would emit it. -/
theorem missing_name_row_halt_counterexample :
    scanRows [[("Status", PyVal.str "Not Working")],
              [("Fuel Station Name", PyVal.str "B"), ("Status", PyVal.str "Working")]]
        Option.none = [] ∧
    (mkStationData [("Status", PyVal.str "Not Working")]).fuel_station = PyVal.none ∧
    scanRows [[("Fuel Station Name", PyVal.str "B"), ("Status", PyVal.str "Working")]]
        Option.none =
      [mkStationData
        [("Fuel Station Name", PyVal.str "B"), ("Status", PyVal.str "Working")]] :=
  ⟨rfl, rfl, rfl⟩

/-- C6 amended: every record in the output has a truthy, non-missing
fuel_station; and a row lacking a resolvable fuel_station is excluded
and the scan continues with the next row, provided the row's status
check neither raises nor triggers the Not Working break and its city
filter step does not raise. -/
theorem fuel_station_required_and_skip :
    (∀ (city : Option String) (rows : List Row) (r : StationRecord),
      r ∈ scanRows rows city →
      pyTruthy r.fuel_station = true ∧ pdNotna r.fuel_station = true) ∧
    (∀ (city : Option String) (row : Row) (rest : List Row) (sl : String) (keep : Bool),
      pyLower (mkStationData row).station_status = Except.ok sl →
      sl ≠ "not working" →
      cityFilterStep city (mkStationData row).city = Except.ok keep →
      (mkStationData row).fuel_station = PyVal.none →
      scanRows (row :: rest) city = scanRows rest city) := by
  constructor
  · intro city rows
    induction rows with
    | nil => intro r hr; simp [scanRows, scanRowsO] at hr
    | cons row rest ih =>
      intro r hr
      simp only [scanRows, scanRowsO] at hr
      rcases mem_processTail_fst hr with ⟨rfl, h1, h2⟩ | hm
      · exact ⟨h1, h2⟩
      · exact ih r hm
  · intro city row rest sl keep hst hsl hfil hname
    simp [scanRows, scanRowsO, processTail, hst, hsl, hfil, hname, pyTruthy]

/-- C6 amended, witness: the emitted record of a concrete scan has a
present fuel_station, and a concrete nameless row skips to the rest. -/
theorem fuel_station_required_and_skip_witness :
    (pyTruthy (mkStationData
        [("Fuel Station Name", PyVal.str "B"), ("Status", PyVal.str "Working")]).fuel_station
      = true ∧
     pdNotna (mkStationData
        [("Fuel Station Name", PyVal.str "B"), ("Status", PyVal.str "Working")]).fuel_station
      = true) ∧
    scanRows ([("District", PyVal.str "X"), ("Status", PyVal.str "Working")] ::
        [[("Fuel Station Name", PyVal.str "B"), ("Status", PyVal.str "Working")]])
      Option.none =
      scanRows [[("Fuel Station Name", PyVal.str "B"), ("Status", PyVal.str "Working")]]
        Option.none :=
  ⟨fuel_station_required_and_skip.1 Option.none
      [[("Fuel Station Name", PyVal.str "B"), ("Status", PyVal.str "Working")]]
      (mkStationData [("Fuel Station Name", PyVal.str "B"), ("Status", PyVal.str "Working")])
      (by decide),
   fuel_station_required_and_skip.2 Option.none
      [("District", PyVal.str "X"), ("Status", PyVal.str "Working")]
      [[("Fuel Station Name", PyVal.str "B"), ("Status", PyVal.str "Working")]]
      "working" true rfl (by decide) rfl rfl⟩

/-- C9 counterexample: with filter riyadh, a row whose resolved city is
the present but empty string is kept even though riyadh is not a
substring of the empty string, refuting kept-iff-substring for every
present city value. -/
theorem empty_city_string_bypasses_filter_counterexample :
    scanRows [[("City", PyVal.str ""), ("Fuel Station Name", PyVal.str "A"),
               ("Status", PyVal.str "Working")]] (some "riyadh") =
      [mkStationData [("City", PyVal.str ""), ("Fuel Station Name", PyVal.str "A"),
        ("Status", PyVal.str "Working")]] ∧
    (mkStationData [("City", PyVal.str ""), ("Fuel Station Name", PyVal.str "A"),
      ("Status", PyVal.str "Working")]).city = PyVal.str "" ∧
    pyInStr (pyLowerStr "riyadh") (pyLowerStr "") = false :=
  ⟨rfl, rfl, rfl⟩

/-- C9 amended: for a row whose resolved city is a present, non-empty
string, the filter step keeps the row exactly when the lower-cased
filter city occurs as a contiguous substring of the lower-cased city
value, and a kept row with valid status and name is emitted. -/
theorem city_filter_substring_decision (c s : String) (hs : s ≠ "") :
    cityFilterStep (some c) (PyVal.str s) =
      Except.ok (pyInStr (pyLowerStr c) (pyLowerStr s)) ∧
    (pyInStr (pyLowerStr c) (pyLowerStr s) = true ↔
      ∃ pre post, (pyLowerStr s).data = pre ++ (pyLowerStr c).data ++ post) ∧
    (∀ (row : Row) (rest : List Row) (sl : String),
      (mkStationData row).city = PyVal.str s →
      pyLower (mkStationData row).station_status = Except.ok sl →
      sl ≠ "not working" →
      (pyTruthy (mkStationData row).fuel_station &&
        pdNotna (mkStationData row).fuel_station) = true →
      scanRows (row :: rest) (some c) =
        if pyInStr (pyLowerStr c) (pyLowerStr s) = true
        then mkStationData row :: scanRows rest (some c)
        else scanRows rest (some c)) := by
  have hfil : cityFilterStep (some c) (PyVal.str s) =
      Except.ok (pyInStr (pyLowerStr c) (pyLowerStr s)) := by
    by_cases hc : c = ""
    · subst hc
      simp [cityFilterStep, pyLowerStr_empty, pyInStr_empty_needle]
    · simp [cityFilterStep, pyTruthy, hc, hs, pyLower]
  refine ⟨hfil, pyInStr_iff _ _, ?_⟩
  intro row rest sl hcity hst hsl hname
  by_cases hk : pyInStr (pyLowerStr c) (pyLowerStr s) = true
  · simp [scanRows, scanRowsO, processTail, hst, hsl, hcity, hfil, hname, hk]
  · simp only [Bool.not_eq_true] at hk
    simp [scanRows, scanRowsO, processTail, hst, hsl, hcity, hfil, hname, hk]

/-- C9 amended, witness: filter riyadh against the city value
Riyadh - Al Olaya. -/
theorem city_filter_substring_decision_witness :
    cityFilterStep (some "riyadh") (PyVal.str "Riyadh - Al Olaya") =
      Except.ok (pyInStr (pyLowerStr "riyadh") (pyLowerStr "Riyadh - Al Olaya")) :=
  (city_filter_substring_decision "riyadh" "Riyadh - Al Olaya" (by decide)).1
